import Mathlib

/-!
Shallow embedding of the zksync-ethers signing core (src/smart-account.ts and
src/wallet.ts) together with the collaborator contracts those files consume.

Conventions of the embedding:
* JavaScript `undefined`/`null` fields become `Option` values (`none` = absent).
* `async` functions that can throw become `Except Err _`; `ethers.assert` throws
  become `Err.unsupportedOperation message operation`, `ethers.assertArgument`
  throws become `Err.invalidArgument message`, plain `throw new Error` becomes
  `Err.jsError message`.
* The network provider is modelled as a pure record of the responses the code
  reads from it (fee data, gas price, pending nonce, gas estimation, balances).
* Big integers are modelled as `Nat` (no arithmetic overflow is involved in the
  translated code paths).
-/

namespace ZkSyncEthers

/-- EIP-712 custom transaction type constant (`utils.EIP712_TX_TYPE`, 0x71). -/
def EIP712_TX_TYPE : Nat := 113

/-- Modelled from the spec: `DEFAULT_GAS_PER_PUBDATA_LIMIT` is a fixed protocol
constant exported by utils.ts, which is absent from src/; only its fixedness is
used by any property below, not its numeric value. -/
def DEFAULT_GAS_PER_PUBDATA_LIMIT : Nat := 50000

/-- The zero address used as the paymaster default. -/
def ZERO_ADDRESS : String := "0x0000000000000000000000000000000000000000"

/-- Paymaster parameters attached verbatim to `customData` (types.ts). -/
structure PaymasterParams where
  paymaster : String
  paymasterInput : String
  deriving Repr, DecidableEq

/-- The `customData` object of an EIP-712 transaction (types.ts `Eip712Meta`).
Every field is optional on a request; `_fillCustomData` fills the defaults. -/
structure CustomData where
  gasPerPubdata : Option Nat := none
  factoryDeps : Option (List (List Nat)) := none
  customSignature : Option (List Nat) := none
  paymasterParams : Option PaymasterParams := none
  deriving Repr, DecidableEq

/-- The empty `{}` custom-data literal. -/
def CustomData.empty : CustomData := {}

/-- A (sparse or populated) transaction. The source field `from` is a Lean
keyword and is embedded as `fromAddr`; likewise `to` becomes `toAddr`. -/
structure Tx where
  toAddr : Option String := none
  fromAddr : Option String := none
  value : Option Nat := none
  data : Option String := none
  nonce : Option Nat := none
  gasLimit : Option Nat := none
  gasPrice : Option Nat := none
  maxFeePerGas : Option Nat := none
  maxPriorityFeePerGas : Option Nat := none
  chainId : Option Nat := none
  type : Option Nat := none
  customData : Option CustomData := none
  deriving Repr, DecidableEq

/-- Errors thrown by the translated code. -/
inductive Err where
  | unsupportedOperation (message : String) (operation : String)
  | invalidArgument (message : String)
  | jsError (message : String)
  deriving Repr, DecidableEq

/-- The fee data returned by `provider.getFeeData()`. -/
structure FeeData where
  gasPrice : Option Nat := none
  maxFeePerGas : Option Nat := none
  maxPriorityFeePerGas : Option Nat := none
  deriving Repr, DecidableEq

/-- The network provider collaborator, modelled as the pure responses the
translated code reads from it during one populate/sign call. -/
structure Provider where
  chainId : Nat
  feeData : FeeData
  gasPrice : Nat
  pendingNonce : Nat
  estimateGas : Tx → Nat
  balanceOf : String → Option String → Nat
  allBalances : String → List (String × Nat)
  deploymentNonce : String → Nat

/-- The `secret` slot of a smart account: a single key or an ordered key list
(the source type is `any`; these are the two shapes the factories construct). -/
inductive Secret where
  | single (key : Nat)
  | keys (ks : List Nat)
  deriving Repr, DecidableEq

/-- Modelled from the spec: ECDSA signing is an external crypto primitive
(spec section 6: sign over a digest yields a 65-byte signature, deterministic
per digest and key); this executable stand-in has exactly that contract. -/
def ecdsaSign (digest : List Nat) (key : Nat) : List Nat :=
  (List.range 65).map fun i => (digest.sum + key * 131 + i * 7 + 1) % 256

/-- Modelled from the spec: `signPayloadWithECDSA` from smart-account-utils.ts,
which is absent from src/ — the single-key strategy signs the digest with the
one secret key (spec section 4.3). -/
def signPayloadWithECDSA (payload : List Nat) (secret : Secret)
    (_provider : Option Provider) : List Nat :=
  match secret with
  | .single k => ecdsaSign payload k
  | .keys ks => ecdsaSign payload (ks.headD 0)

/-- Modelled from the spec: `signPayloadWithMultipleECDSA` from
smart-account-utils.ts, absent from src/ — sign the same digest independently
with each secret and concatenate the signatures in the given order
(spec section 4.3). -/
def signPayloadWithMultipleECDSA (payload : List Nat) (secret : Secret)
    (_provider : Option Provider) : List Nat :=
  match secret with
  | .single k => ecdsaSign payload k
  | .keys ks => (ks.map fun k => ecdsaSign payload k).flatten

/-- Modelled from the spec: `_fillCustomData` from adapters.ts, absent from
src/ — merge `customData` with protocol defaults: `gasPerPubdata` defaults to
the fixed constant, `factoryDeps` to the empty sequence (spec section 4.1). -/
def fillCustomData (cd : CustomData) : CustomData :=
  { cd with
    gasPerPubdata := some (cd.gasPerPubdata.getD DEFAULT_GAS_PER_PUBDATA_LIMIT)
    factoryDeps := some (cd.factoryDeps.getD []) }

/-- Bytes of a string, for the encoding stand-ins below. -/
def strBytes (s : String) : List Nat := s.toList.map Char.toNat

/-- Modelled from the spec: the canonical sign-input struct of
`EIP712Signer.getSignInput` (signer.ts, absent from src/), spec section 4.2. -/
structure SignInput where
  txType : Nat
  fromAddr : String
  toAddr : String
  gasLimit : Nat
  gasPerPubdataByteLimit : Nat
  maxFeePerGas : Nat
  maxPriorityFeePerGas : Nat
  paymaster : String
  nonce : Nat
  value : Nat
  data : String
  factoryDeps : List (List Nat)
  paymasterInput : String
  deriving Repr, DecidableEq

/-- Modelled from the spec: `EIP712Signer.getSignInput` (signer.ts, absent
from src/), spec section 4.2 and the repository's unit test: every field gets
a concrete default (zero, zero address, empty bytes, empty sequence);
`maxFeePerGas` falls back to `gasPrice`, `maxPriorityFeePerGas` falls back to
`maxFeePerGas`. -/
def getSignInput (tx : Tx) : SignInput :=
  let maxFeePerGas := tx.maxFeePerGas.getD (tx.gasPrice.getD 0)
  let cd := tx.customData.getD CustomData.empty
  { txType := EIP712_TX_TYPE
    fromAddr := tx.fromAddr.getD ""
    toAddr := tx.toAddr.getD ""
    gasLimit := tx.gasLimit.getD 0
    gasPerPubdataByteLimit := cd.gasPerPubdata.getD DEFAULT_GAS_PER_PUBDATA_LIMIT
    maxFeePerGas := maxFeePerGas
    maxPriorityFeePerGas := tx.maxPriorityFeePerGas.getD maxFeePerGas
    paymaster := ((cd.paymasterParams.map fun pp => pp.paymaster).getD ZERO_ADDRESS)
    nonce := tx.nonce.getD 0
    value := tx.value.getD 0
    data := tx.data.getD "0x"
    factoryDeps := cd.factoryDeps.getD []
    paymasterInput := ((cd.paymasterParams.map fun pp => pp.paymasterInput).getD "0x") }

/-- Flatten a sign-input struct to bytes, feeding the hash stand-in. -/
def SignInput.encode (si : SignInput) : List Nat :=
  [si.txType, si.gasLimit, si.gasPerPubdataByteLimit, si.maxFeePerGas,
   si.maxPriorityFeePerGas, si.nonce, si.value]
    ++ strBytes si.fromAddr ++ strBytes si.toAddr ++ strBytes si.paymaster
    ++ strBytes si.data ++ si.factoryDeps.map List.sum ++ strBytes si.paymasterInput

/-- Modelled from the spec: stand-in for the external typed-data keccak hash
(spec section 6, crypto primitives are black boxes): a deterministic 32-byte
digest of the encoded input. -/
def keccakModel (xs : List Nat) : List Nat :=
  (List.range 32).map fun i => (xs.sum + xs.length * 31 + i * 13) % 256

/-- Modelled from the spec: `EIP712Signer.getSignedDigest` (signer.ts, absent
from src/) — fails when `chainId` is absent, otherwise hashes the sign-input
struct under the EIP-712 domain that carries the chain id (spec section 4.2,
corroborated by the repository's unit test for the missing-chain-id error). -/
def EIP712Signer.getSignedDigest (tx : Tx) : Except Err (List Nat) :=
  match tx.chainId with
  | none => .error (.jsError "Transaction chainId is not set!")
  | some c => .ok (keccakModel ((getSignInput tx).encode ++ [c]))

/-- Modelled from the spec: the byte encoding of the custom wire envelope in
the fixed field order of spec section 6; stands in for RLP (a black-box
collaborator). -/
def txWireEncode (tx : Tx) (chainId : Nat) : List Nat :=
  let cd := tx.customData.getD CustomData.empty
  [tx.nonce.getD 0, tx.maxPriorityFeePerGas.getD 0,
   tx.maxFeePerGas.getD (tx.gasPrice.getD 0), tx.gasLimit.getD 0]
    ++ strBytes (tx.toAddr.getD "") ++ [tx.value.getD 0]
    ++ strBytes (tx.data.getD "0x") ++ [chainId]
    ++ strBytes (tx.fromAddr.getD "")
    ++ [cd.gasPerPubdata.getD DEFAULT_GAS_PER_PUBDATA_LIMIT]
    ++ (cd.factoryDeps.getD []).map List.sum
    ++ cd.customSignature.getD []
    ++ strBytes ((cd.paymasterParams.map fun pp => pp.paymaster).getD "")
    ++ strBytes ((cd.paymasterParams.map fun pp => pp.paymasterInput).getD "")

/-- Modelled from the spec: `serializeEip712` (utils.ts, absent from src/) —
fails when `chainId` is absent, otherwise produces the type-prefixed wire
serialization of the transaction (spec section 4.2 and section 6). -/
def serializeEip712 (tx : Tx) : Except Err String :=
  match tx.chainId with
  | none => .error (.jsError "Transaction chainId is not set!")
  | some c => .ok ("0x71:" ++ toString (txWireEncode tx c))

/-- JavaScript `a || b` on an optional string: the empty string is falsy. -/
def jsOrString (s : Option String) (d : String) : String :=
  match s with
  | some v => if v = "" then d else v
  | none => d

/-- The signing strategy type `PayloadSigner` (types.ts). -/
abbrev PayloadSigner := List Nat → Secret → Option Provider → List Nat

/-- The building strategy type `TransactionBuilder` (types.ts). -/
abbrev TransactionBuilder := Tx → Secret → Option Provider → Except Err Tx

/-- The `SmartAccount` entity of smart-account.ts: address, secret, optional
provider, and the two pluggable strategies. -/
structure SmartAccount where
  address : String
  secret : Secret
  provider : Option Provider
  payloadSigner : PayloadSigner
  transactionBuilder : TransactionBuilder

/-- The `SmartAccountSinger` constructor argument (the source's own spelling),
with the two strategies optional. -/
structure SmartAccountSinger where
  address : String
  secret : Secret
  payloadSigner : Option PayloadSigner := none
  transactionBuilder : Option TransactionBuilder := none

/-- Modelled from the spec: the default `populateTransaction` transaction
builder of smart-account-utils.ts, absent from src/ — the custom-transaction
path of spec section 4.1: require a provider, set the custom type, resolve
nonce, gas limit and chain id, default value and data, fill custom data and
take the provider's gas price. -/
def populateTransaction (tx : Tx) (_secret : Secret)
    (provider : Option Provider) : Except Err Tx :=
  match provider with
  | none => .error (.unsupportedOperation "missing provider" "populateTransaction")
  | some p =>
    let tx := { tx with type := some EIP712_TX_TYPE }
    let tx := { tx with nonce := some (tx.nonce.getD p.pendingNonce) }
    let tx := { tx with gasLimit := some (tx.gasLimit.getD (p.estimateGas tx)) }
    match tx.chainId with
    | some c =>
      if c = p.chainId then
        .ok { tx with
              value := some (tx.value.getD 0), data := some (tx.data.getD "0x"),
              customData := some (fillCustomData (tx.customData.getD CustomData.empty)),
              gasPrice := some p.gasPrice }
      else .error (.invalidArgument "transaction chainId mismatch")
    | none =>
      .ok { tx with
            chainId := some p.chainId,
            value := some (tx.value.getD 0), data := some (tx.data.getD "0x"),
            customData := some (fillCustomData (tx.customData.getD CustomData.empty)),
            gasPrice := some p.gasPrice }

/-- Modelled from the spec: `populateTransactionMultisig` from
smart-account-utils.ts, absent from src/ — the spec (section 2) only states it
has the same shape as the default builder, so it is embedded as that shape. -/
def populateTransactionMultisig (tx : Tx) (secret : Secret)
    (provider : Option Provider) : Except Err Tx :=
  populateTransaction tx secret provider

/-- The `SmartAccount` constructor: the optional strategies default to the
single-key signer and the default builder. -/
def mkSmartAccount (signer : SmartAccountSinger) (provider : Option Provider) :
    SmartAccount :=
  { address := signer.address
    secret := signer.secret
    provider := provider
    payloadSigner := signer.payloadSigner.getD signPayloadWithECDSA
    transactionBuilder := signer.transactionBuilder.getD populateTransaction }

/-- `SmartAccount.connect`: a new instance sharing address, secret and both
strategies, bound to the given provider (or detached when `none`). -/
def SmartAccount.connect (a : SmartAccount) (provider : Option Provider) :
    SmartAccount :=
  mkSmartAccount
    { address := a.address
      secret := a.secret
      payloadSigner := some a.payloadSigner
      transactionBuilder := some a.transactionBuilder }
    provider

/-- `checkProvider` of smart-account.ts: return the provider or fail with the
missing-provider unsupported-operation error. -/
def checkProvider (a : SmartAccount) (operation : String) : Except Err Provider :=
  match a.provider with
  | some p => .ok p
  | none => .error (.unsupportedOperation "missing provider" operation)

/-- `SmartAccount.getAddress`: the bound address, no failure path. -/
def SmartAccount.getAddress (a : SmartAccount) : String := a.address

/-- `SmartAccount.getBalance` (the block tag does not affect the pure model). -/
def SmartAccount.getBalance (a : SmartAccount) (token : Option String) :
    Except Err Nat :=
  match checkProvider a "getBalance" with
  | .error e => .error e
  | .ok p => .ok (p.balanceOf a.getAddress token)

/-- `SmartAccount.getAllBalances`. -/
def SmartAccount.getAllBalances (a : SmartAccount) :
    Except Err (List (String × Nat)) :=
  match checkProvider a "getAllAccountBalances" with
  | .error e => .error e
  | .ok p => .ok (p.allBalances a.getAddress)

/-- `SmartAccount.getDeploymentNonce`. The source reads the nonce-holder
contract through the account as contract runner; the read goes through the
external signer collaborator, which fails with the missing-provider
unsupported-operation error when the account is detached (spec sections 4.4
and 7: `MissingProvider` when the operation needs network access and none is
bound). -/
def SmartAccount.getDeploymentNonce (a : SmartAccount) : Except Err Nat :=
  match a.provider with
  | some p => .ok (p.deploymentNonce a.getAddress)
  | none => .error (.unsupportedOperation "missing provider" "call")

/-- `SmartAccount.populateTransaction`: delegate to the bound builder after
injecting the account address when `from` is unset (`tx.from || address`). -/
def SmartAccount.populateTransaction (a : SmartAccount) (tx : Tx) :
    Except Err Tx :=
  a.transactionBuilder
    { tx with fromAddr := some (jsOrString tx.fromAddr a.getAddress) }
    a.secret a.provider

/-- The customData merge of `SmartAccount.signTransaction`:
`{...populatedTx.customData, customSignature: sig}`. -/
def mergeCustomSignature (cd : Option CustomData) (sig : List Nat) : CustomData :=
  { cd.getD CustomData.empty with customSignature := some sig }

/-- `SmartAccount.signTransaction`: populate, digest, sign the digest with the
bound payload signer, store the signature in `customData.customSignature`, and
serialize. -/
def SmartAccount.signTransaction (a : SmartAccount) (tx : Tx) :
    Except Err String :=
  match a.populateTransaction tx with
  | .error e => .error e
  | .ok populatedTx =>
    match EIP712Signer.getSignedDigest populatedTx with
    | .error e => .error e
    | .ok populatedTxHash =>
      serializeEip712
        { populatedTx with
          customData := some (mergeCustomSignature populatedTx.customData
            (a.payloadSigner populatedTxHash a.secret a.provider)) }

/-- `ECDSASmartAccount.create`: a smart account with the default strategies. -/
def ECDSASmartAccount.create (address : String) (secret : Nat)
    (provider : Option Provider) : SmartAccount :=
  mkSmartAccount { address := address, secret := .single secret } provider

/-- `MultisigECDSASmartAccount.create`: a smart account using the multi-key
signing strategy and the multisig builder. -/
def MultisigECDSASmartAccount.create (address : String) (secret : List Nat)
    (provider : Option Provider) : SmartAccount :=
  mkSmartAccount
    { address := address
      secret := .keys secret
      payloadSigner := some signPayloadWithMultipleECDSA
      transactionBuilder := some populateTransactionMultisig }
    provider

/-- The L2 `Wallet` of wallet.ts. The base-chain behavior inherited from
`ethers.Wallet` (an out-of-scope collaborator per spec section 1) appears as
the fields `superPopulate` / `superSign`; the embedded per-account EIP-712
signer (`this.eip712.sign`) appears as `eip712Sign`. -/
structure Wallet where
  address : String
  provider : Option Provider
  superPopulate : Tx → Except Err Tx
  superSign : Tx → Except Err String
  eip712Sign : Tx → List Nat

/-- The free function `populate` of wallet.ts: copy the request and default
`from` to the signer's address (name resolution is the identity here since the
model carries plain addresses). -/
def walletPopulate (w : Wallet) (tx : Tx) : Tx :=
  { tx with fromAddr := some (tx.fromAddr.getD w.address) }

/-- The fee-inference part of `Wallet._populateTransaction` (wallet.ts lines
117-208): the two mixing guards followed by the legacy / EIP-1559 / auto-detect
branch chain. The network fee data is passed in as a value; in the source it
is fetched lazily in the branches that read it, which has no other effect. -/
def feeInference (feeData : FeeData) (pop : Tx) : Except Err Tx :=
  -- the source's `hasEip1559` local is inlined, and its sequential
  -- fill-if-missing mutations are written as single record updates whose
  -- fields carry the same conditionals; both rewrites are value-preserving
  if pop.gasPrice.isSome
      && (pop.type == some 2 || (pop.maxFeePerGas.isSome || pop.maxPriorityFeePerGas.isSome)) then
    .error (.invalidArgument "eip-1559 transaction do not support gasPrice")
  else if (pop.type == some 0 || pop.type == some 1)
      && (pop.maxFeePerGas.isSome || pop.maxPriorityFeePerGas.isSome) then
    .error (.invalidArgument
      "pre-eip-1559 transaction do not support maxFeePerGas/maxPriorityFeePerGas")
  else if (pop.type == some 2 || pop.type == none)
      && pop.maxFeePerGas.isSome && pop.maxPriorityFeePerGas.isSome then
    .ok { pop with type := some 2 }
  else if pop.type == some 0 || pop.type == some 1 then
    match feeData.gasPrice with
    | none => .error (.unsupportedOperation "network does not support gasPrice" "getGasPrice")
    | some g => .ok { pop with gasPrice := some (pop.gasPrice.getD g) }
  else
    if pop.type == none then
      if feeData.maxFeePerGas.isSome && feeData.maxPriorityFeePerGas.isSome then
        match pop.gasPrice with
        | some gasPrice =>
          .ok { pop with
                type := some 2
                gasPrice := none
                maxFeePerGas := some gasPrice
                maxPriorityFeePerGas := some gasPrice }
        | none =>
          .ok { pop with
                type := some 2
                maxFeePerGas :=
                  if pop.maxFeePerGas == none then feeData.maxFeePerGas
                  else pop.maxFeePerGas
                maxPriorityFeePerGas :=
                  if pop.maxPriorityFeePerGas == none then feeData.maxPriorityFeePerGas
                  else pop.maxPriorityFeePerGas }
      else if feeData.gasPrice.isSome then
        if pop.maxFeePerGas.isSome || pop.maxPriorityFeePerGas.isSome then
          .error (.unsupportedOperation "network does not support EIP-1559" "populateTransaction")
        else
          .ok { pop with
                type := some 0
                gasPrice :=
                  if pop.gasPrice == none then feeData.gasPrice else pop.gasPrice }
      else
        .error (.unsupportedOperation "failed to get consistent fee data" "signer.getFeeData")
    else if pop.type == some 2 then
      .ok { pop with
            maxFeePerGas :=
              if pop.maxFeePerGas == none then feeData.maxFeePerGas
              else pop.maxFeePerGas
            maxPriorityFeePerGas :=
              if pop.maxPriorityFeePerGas == none then feeData.maxPriorityFeePerGas
              else pop.maxPriorityFeePerGas }
    else
      .ok pop

/-- The nonce and gas-limit fills of `Wallet._populateTransaction`: the
pending nonce when `nonce` is unset, then gas estimation on the nonce-filled
transaction when `gasLimit` is unset. -/
def fillNonceGas (provider : Provider) (w : Wallet) (tx : Tx) : Tx :=
  let pop := walletPopulate w tx
  let pop := { pop with nonce := some (pop.nonce.getD provider.pendingNonce) }
  { pop with gasLimit := some (pop.gasLimit.getD (provider.estimateGas pop)) }

/-- `Wallet._populateTransaction` (wallet.ts lines 95-211): require a provider,
default `from`, fill nonce from the pending nonce, fill the gas limit by
estimation, resolve the chain id (failing on a conflicting caller value), then
run the fee inference. -/
def Wallet.populateTransactionInner (w : Wallet) (tx : Tx) : Except Err Tx :=
  match w.provider with
  | none => .error (.unsupportedOperation "missing provider" "populateTransaction")
  | some provider =>
    match (fillNonceGas provider w tx).chainId with
    | some c =>
      if c = provider.chainId then feeInference provider.feeData (fillNonceGas provider w tx)
      else .error (.invalidArgument "transaction chainId mismatch")
    | none =>
      feeInference provider.feeData
        { fillNonceGas provider w tx with chainId := some provider.chainId }

/-- `Wallet.populateTransaction` (wallet.ts lines 217-233): default `type` to 0
when both `type` and `customData` are absent; delegate plain transactions to
the base chain; otherwise run `_populateTransaction` and force the custom
type, value/data defaults, filled custom data and the provider's gas price. -/
def Wallet.populateTransaction (w : Wallet) (tx : Tx) : Except Err Tx :=
  let transaction :=
    if tx.type == none && tx.customData == none then { tx with type := some 0 } else tx
  if transaction.customData == none && transaction.type != some EIP712_TX_TYPE then
    w.superPopulate transaction
  else
    match w.populateTransactionInner transaction, w.provider with
    | .error e, _ => .error e
    | .ok _, none =>
      -- unreachable: `_populateTransaction` has already failed on a missing
      -- provider; kept as the error the gas price read would need
      .error (.unsupportedOperation "missing provider" "getGasPrice")
    | .ok populated, some p =>
      .ok { populated with
            type := some EIP712_TX_TYPE
            value := some (populated.value.getD 0)
            data := some (populated.data.getD "0x")
            customData := some (fillCustomData (transaction.customData.getD CustomData.empty))
            gasPrice := some p.gasPrice }

/-- `Wallet.signTransaction` (wallet.ts lines 235-250): plain transactions get
an EIP-1559 gas price backfill for type 2 and go to the base chain; custom
transactions default `from` and `customData`, populate, sign with the embedded
EIP-712 signer into `customData.customSignature`, and serialize. -/
def Wallet.signTransaction (w : Wallet) (tx : Tx) : Except Err String :=
  if tx.customData == none && tx.type != some EIP712_TX_TYPE then
    if tx.type == some 2 && tx.maxFeePerGas == none then
      match w.provider with
      | none =>
        -- the source would fail reading `this.provider.getGasPrice()` here
        .error (.unsupportedOperation "missing provider" "getGasPrice")
      | some p => w.superSign { tx with maxFeePerGas := some p.gasPrice }
    else
      w.superSign tx
  else
    let transaction :=
      { tx with fromAddr := some (tx.fromAddr.getD w.address)
                customData := some (tx.customData.getD CustomData.empty) }
    match w.populateTransaction transaction with
    | .error e => .error e
    | .ok populated =>
      serializeEip712
        { populated with
          customData := some (mergeCustomSignature populated.customData
            (w.eip712Sign populated)) }

/-! ### Concrete fixtures used to evaluate the model on closed inputs -/

/-- A network whose fee data only carries a legacy gas price. -/
def providerLegacy : Provider :=
  { chainId := 270
    feeData := { gasPrice := some 250000000 }
    gasPrice := 250000000
    pendingNonce := 3
    estimateGas := fun _ => 21000
    balanceOf := fun _ _ => 1000
    allBalances := fun _ => [("0x0", 1000)]
    deploymentNonce := fun _ => 7 }

/-- A network whose fee data carries both EIP-1559 fields. -/
def provider1559 : Provider :=
  { providerLegacy with
    feeData := { gasPrice := some 250000000
                 maxFeePerGas := some 300000000
                 maxPriorityFeePerGas := some 100000000 } }

/-- A network whose fee data is empty. -/
def providerNoFee : Provider := { providerLegacy with feeData := {} }

/-- A wallet connected to the EIP-1559 network. -/
def walletFix : Wallet :=
  { address := "0x36615Cf349d7F6344891B1e7CA7C72883F5dc049"
    provider := some provider1559
    superPopulate := fun t => .ok t
    superSign := fun _ => .ok "0x02base"
    eip712Sign := fun _ => [9, 9, 9] }

/-- The same wallet on the legacy-only network. -/
def walletLegacy : Wallet := { walletFix with provider := some providerLegacy }

/-- A smart account with the default strategies on the EIP-1559 network. -/
def acctFix : SmartAccount :=
  mkSmartAccount { address := "0xA", secret := .single 42 } (some provider1559)

/-- The same account detached from any provider. -/
def acctDetached : SmartAccount := acctFix.connect none

/-- A sparse request used by the pipeline witnesses. -/
def txW1 : Tx := { toAddr := some "0xR" }

/-- The populated form of `txW1` under `acctFix`'s default builder. -/
def popW1 : Tx :=
  { toAddr := some "0xR"
    fromAddr := some "0xA"
    value := some 0
    data := some "0x"
    nonce := some 3
    gasLimit := some 21000
    gasPrice := some 250000000
    chainId := some 270
    type := some EIP712_TX_TYPE
    customData := some { gasPerPubdata := some DEFAULT_GAS_PER_PUBDATA_LIMIT
                         factoryDeps := some [] } }

/-- The explicit type-2 request of the C5 counterexample. -/
def txType2 : Tx := { type := some 2 }

/-- What `_populateTransaction` actually produces for `txType2` on the
legacy-only network: type stays 2 and no fee field is filled. -/
def popType2 : Tx :=
  { type := some 2, nonce := some 3, gasLimit := some 21000, chainId := some 270
    fromAddr := some "0x36615Cf349d7F6344891B1e7CA7C72883F5dc049" }

/-- The mismatched-`from` request of the repository's own regression test
(tests/integration/smart-account.test.ts): `from` is the receiver address,
not the wallet's. -/
def txMismatch : Tx :=
  { type := some EIP712_TX_TYPE
    fromAddr := some "0xa61464658AfeAf65CccaaFD3a512b69A83B77618"
    toAddr := some "0xa61464658AfeAf65CccaaFD3a512b69A83B77618"
    value := some 7000000000 }

/-- The populated form of `{ customData := some {} }` under `walletFix`. -/
def popCustomW : Tx :=
  { fromAddr := some "0x36615Cf349d7F6344891B1e7CA7C72883F5dc049"
    value := some 0
    data := some "0x"
    nonce := some 3
    gasLimit := some 21000
    gasPrice := some 250000000
    maxFeePerGas := some 300000000
    maxPriorityFeePerGas := some 100000000
    chainId := some 270
    type := some EIP712_TX_TYPE
    customData := some { gasPerPubdata := some DEFAULT_GAS_PER_PUBDATA_LIMIT
                         factoryDeps := some [] } }

/-- What `_populateTransaction` produces for `{ gasPrice := some 7 }` under
`walletFix`: the legacy gas price is converted into both EIP-1559 fields. -/
def popUpgradeW : Tx :=
  { fromAddr := some "0x36615Cf349d7F6344891B1e7CA7C72883F5dc049"
    nonce := some 3
    gasLimit := some 21000
    maxFeePerGas := some 7
    maxPriorityFeePerGas := some 7
    chainId := some 270
    type := some 2 }

/-- What `_populateTransaction` produces for the empty request under
`walletLegacy`: legacy type 0 with the network gas price. -/
def popLegacyW : Tx :=
  { fromAddr := some "0x36615Cf349d7F6344891B1e7CA7C72883F5dc049"
    nonce := some 3
    gasLimit := some 21000
    gasPrice := some 250000000
    chainId := some 270
    type := some 0 }

/-! ### Theorems -/

/-- Each single-key signature stand-in is 65 bytes, as the crypto contract
demands. -/
theorem ecdsaSign_length (digest : List Nat) (key : Nat) :
    (ecdsaSign digest key).length = 65 := by
  simp [ecdsaSign]

/-- The multi-key strategy produces `65 * N` bytes for `N` keys. -/
theorem signPayloadWithMultipleECDSA_length (payload : List Nat) (ks : List Nat)
    (p : Option Provider) :
    (signPayloadWithMultipleECDSA payload (.keys ks) p).length = 65 * ks.length := by
  induction ks with
  | nil => simp [signPayloadWithMultipleECDSA]
  | cons k ks ih =>
    simp only [signPayloadWithMultipleECDSA, List.map_cons, List.flatten_cons,
      List.length_append, ecdsaSign_length, List.length_cons] at *
    omega

/-- C6: for every ordered sequence of N secrets, the multisig payload-signing
strategy returns a signature of exactly N times 65 bytes which is the
byte-concatenation, in input order, of the single-key ECDSA signatures of the
same digest under each secret. -/
theorem multisig_signature_concat (digest : List Nat) (ks : List Nat)
    (addr : String) (p : Option Provider) :
    ((MultisigECDSASmartAccount.create addr ks p).payloadSigner digest
        (MultisigECDSASmartAccount.create addr ks p).secret p).length = 65 * ks.length ∧
    (MultisigECDSASmartAccount.create addr ks p).payloadSigner digest
        (MultisigECDSASmartAccount.create addr ks p).secret p
      = (ks.map fun k => ecdsaSign digest k).flatten :=
  ⟨signPayloadWithMultipleECDSA_length digest ks p, rfl⟩

/-- Witness for C6: two keys yield a 130-byte signature. -/
theorem multisig_signature_concat_witness :
    ((MultisigECDSASmartAccount.create "0xM" [10, 20] none).payloadSigner [1, 2]
        (MultisigECDSASmartAccount.create "0xM" [10, 20] none).secret none).length = 130 :=
  (multisig_signature_concat [1, 2] [10, 20] "0xM" none).1

/-- C8: `connect` returns a new instance equal to the original except for the
provider slot: address, secret and both strategies are shared, the provider is
the argument (so `connect none` detaches), and nothing else changes — the new
instance is exactly the original with its provider replaced. -/
theorem smartAccount_connect_immutable (a : SmartAccount) (p : Option Provider) :
    (a.connect p).address = a.address ∧
    (a.connect p).secret = a.secret ∧
    (a.connect p).payloadSigner = a.payloadSigner ∧
    (a.connect p).transactionBuilder = a.transactionBuilder ∧
    (a.connect p).provider = p ∧
    a.connect p = { a with provider := p } ∧
    (a.connect none).provider = none :=
  ⟨rfl, rfl, rfl, rfl, rfl, rfl, rfl⟩

/-- C9: on a detached account, `getBalance`, `getAllBalances` and
`getDeploymentNonce` all fail with the missing-provider error, while
`getAddress` is total and returns the bound address on every account. -/
theorem smartAccount_detached_operations (a : SmartAccount) (token : Option String)
    (hp : a.provider = none) :
    a.getBalance token = .error (.unsupportedOperation "missing provider" "getBalance") ∧
    a.getAllBalances = .error (.unsupportedOperation "missing provider" "getAllAccountBalances") ∧
    a.getDeploymentNonce = .error (.unsupportedOperation "missing provider" "call") ∧
    (∀ b : SmartAccount, b.getAddress = b.address) := by
  refine ⟨?_, ?_, ?_, fun b => rfl⟩ <;>
    simp [SmartAccount.getBalance, SmartAccount.getAllBalances,
      SmartAccount.getDeploymentNonce, checkProvider, hp]

/-- Witness for C9 at the detached fixture account. -/
theorem smartAccount_detached_operations_witness :
    acctDetached.provider = none ∧
    acctDetached.getBalance none
      = .error (.unsupportedOperation "missing provider" "getBalance") :=
  ⟨rfl, (smartAccount_detached_operations acctDetached none rfl).1⟩

/-- C7 (code evaluation at the failing input): the wallet's `signTransaction`
does not reject a request whose explicit `from` differs from the wallet's own
address — it signs and serializes successfully, although the repository's own
regression test demands the from-address-mismatch failure. The absent-`from`
half of the claim does hold: with `from` unset, signing also proceeds. -/
theorem wallet_signTransaction_mismatched_from_not_rejected :
    (walletFix.address = "0xa61464658AfeAf65CccaaFD3a512b69A83B77618") = False ∧
    txMismatch.fromAddr = some "0xa61464658AfeAf65CccaaFD3a512b69A83B77618" ∧
    (walletFix.signTransaction txMismatch).isOk = true ∧
    (walletFix.signTransaction { type := some EIP712_TX_TYPE }).isOk = true := by
  refine ⟨by simp [walletFix], rfl, rfl, rfl⟩

/-- C2: when both `type` and `customData` are absent, population defaults the
type to 0 and delegates unchanged to the base chain's legacy/EIP-1559
inference; when `customData` is present or the custom type is requested, a
successful population always resolves the type to the EIP-712 constant. -/
theorem wallet_populateTransaction_type_dispatch (w : Wallet) (tx : Tx) :
    (tx.type = none → tx.customData = none →
      w.populateTransaction tx = w.superPopulate { tx with type := some 0 }) ∧
    (∀ pop, (tx.customData.isSome ∨ tx.type = some EIP712_TX_TYPE) →
      w.populateTransaction tx = .ok pop → pop.type = some EIP712_TX_TYPE) := by
  constructor
  · intro h1 h2
    simp [Wallet.populateTransaction, h1, h2, EIP712_TX_TYPE]
  · intro pop hdisj hok
    have hcond : (tx.type == none && tx.customData == none) = false := by
      rcases hdisj with h | h
      · rcases Option.isSome_iff_exists.mp h with ⟨cd, hcd⟩
        simp [hcd]
      · simp [h]
    have hdispatch : (tx.customData == none && tx.type != some EIP712_TX_TYPE) = false := by
      rcases hdisj with h | h
      · rcases Option.isSome_iff_exists.mp h with ⟨cd, hcd⟩
        simp [hcd]
      · simp [h]
    simp only [Wallet.populateTransaction, hcond, if_false, Bool.false_eq_true,
      hdispatch] at hok
    split at hok
    · exact absurd hok (by simp)
    · exact absurd hok (by simp)
    · cases hok
      rfl

/-- Witness for C2: on the fixture wallet, the empty request is delegated to
the base chain with type 0, and the custom-data request resolves to the
EIP-712 type. -/
theorem wallet_populateTransaction_type_dispatch_witness :
    walletFix.populateTransaction {}
      = walletFix.superPopulate { ({} : Tx) with type := some 0 } ∧
    popCustomW.type = some EIP712_TX_TYPE :=
  ⟨(wallet_populateTransaction_type_dispatch walletFix {}).1 rfl rfl,
   (wallet_populateTransaction_type_dispatch walletFix
      { customData := some CustomData.empty }).2 popCustomW (Or.inl rfl) rfl⟩

/-- C10: on the non-custom path, `signTransaction` backfills a missing
`maxFeePerGas` from the provider's gas price for explicit type-2 requests and
otherwise hands the request to base signing unmodified. -/
theorem wallet_signTransaction_noncustom (w : Wallet) (p : Provider) (tx : Tx)
    (hp : w.provider = some p) (hcd : tx.customData = none)
    (ht : tx.type ≠ some EIP712_TX_TYPE) :
    (tx.type = some 2 → tx.maxFeePerGas = none →
      w.signTransaction tx = w.superSign { tx with maxFeePerGas := some p.gasPrice }) ∧
    (¬(tx.type = some 2 ∧ tx.maxFeePerGas = none) →
      w.signTransaction tx = w.superSign tx) := by
  constructor
  · intro h2 hmf
    simp [Wallet.signTransaction, hcd, ht, h2, hmf, hp, EIP712_TX_TYPE]
  · intro hno
    have : (tx.type == some 2 && tx.maxFeePerGas == none) = false := by
      rcases Option.eq_none_or_eq_some tx.maxFeePerGas with hmf | ⟨v, hmf⟩
      · rcases Option.eq_none_or_eq_some tx.type with h | ⟨t, h⟩
        · simp [h]
        · by_cases h2 : t = 2
          · exact absurd ⟨by simp [h, h2], hmf⟩ hno
          · simp [h, h2]
      · simp [hmf]
    simp [Wallet.signTransaction, hcd, ht, this]

/-- Witness for C10: on the fixture wallet, a type-2 request without
`maxFeePerGas` is base-signed with the provider gas price filled in. -/
theorem wallet_signTransaction_noncustom_witness :
    walletFix.signTransaction { type := some 2 }
      = walletFix.superSign
          { ({ type := some 2 } : Tx) with maxFeePerGas := some provider1559.gasPrice } :=
  (wallet_signTransaction_noncustom walletFix provider1559 { type := some 2 }
    rfl rfl (by simp [EIP712_TX_TYPE])).1 rfl rfl

/-- C1: `SmartAccount.signTransaction` is exactly the pipeline: populate via
the bound builder (injecting the account address as `from` when absent),
compute the EIP-712 signed digest of the populated transaction, sign that
digest with the bound payload signer and the account secret, store the
signature in `customData.customSignature` while every other custom-data field
of the populated transaction is preserved, and return the EIP-712
serialization of the result. -/
theorem smartAccount_signTransaction_pipeline
    (a : SmartAccount) (tx pop : Tx) (c : Nat)
    (hpop : a.transactionBuilder
        { tx with fromAddr := some (jsOrString tx.fromAddr a.address) }
        a.secret a.provider = .ok pop)
    (hchain : pop.chainId = some c) :
    a.populateTransaction tx = .ok pop ∧
    (tx.fromAddr = none →
      a.populateTransaction tx
        = a.transactionBuilder { tx with fromAddr := some a.address } a.secret a.provider) ∧
    ∃ digest sig,
      EIP712Signer.getSignedDigest pop = .ok digest ∧
      sig = a.payloadSigner digest a.secret a.provider ∧
      (mergeCustomSignature pop.customData sig).customSignature = some sig ∧
      (mergeCustomSignature pop.customData sig).gasPerPubdata
        = (pop.customData.getD CustomData.empty).gasPerPubdata ∧
      (mergeCustomSignature pop.customData sig).factoryDeps
        = (pop.customData.getD CustomData.empty).factoryDeps ∧
      (mergeCustomSignature pop.customData sig).paymasterParams
        = (pop.customData.getD CustomData.empty).paymasterParams ∧
      a.signTransaction tx
        = serializeEip712
            { pop with customData := some (mergeCustomSignature pop.customData sig) } := by
  have hpt : a.populateTransaction tx = .ok pop := by
    simpa [SmartAccount.populateTransaction, SmartAccount.getAddress] using hpop
  refine ⟨hpt, ?_, keccakModel ((getSignInput pop).encode ++ [c]), _, ?_, rfl, rfl,
    rfl, rfl, rfl, ?_⟩
  · intro hfrom
    simp [SmartAccount.populateTransaction, SmartAccount.getAddress, jsOrString, hfrom]
  · simp [EIP712Signer.getSignedDigest, hchain]
  · simp [SmartAccount.signTransaction, hpt, EIP712Signer.getSignedDigest, hchain]

/-- Witness for C1: on the fixture account the default builder populates the
sparse request to `popW1`, whose chain id is set, and population indeed
returns it. -/
theorem smartAccount_signTransaction_pipeline_witness :
    acctFix.transactionBuilder
        { txW1 with fromAddr := some (jsOrString txW1.fromAddr acctFix.address) }
        acctFix.secret acctFix.provider = .ok popW1 ∧
    popW1.chainId = some 270 ∧
    acctFix.populateTransaction txW1 = .ok popW1 :=
  ⟨rfl, rfl, (smartAccount_signTransaction_pipeline acctFix txW1 popW1 270 rfl rfl).1⟩

/-- The fee-inference stage never touches `value` or `data`. -/
theorem feeInference_preserves (feeData : FeeData) (pop pop2 : Tx)
    (h : feeInference feeData pop = .ok pop2) :
    pop2.value = pop.value ∧ pop2.data = pop.data := by
  unfold feeInference at h
  repeat' split at h
  all_goals cases h
  all_goals exact ⟨rfl, rfl⟩

/-- `_populateTransaction` never touches `value` or `data`. -/
theorem populateTransactionInner_preserves (w : Wallet) (tx pop : Tx)
    (h : w.populateTransactionInner tx = .ok pop) :
    pop.value = tx.value ∧ pop.data = tx.data := by
  unfold Wallet.populateTransactionInner at h
  split at h
  · exact absurd h (by simp)
  · split at h
    · split at h
      · have hpres := feeInference_preserves _ _ _ h
        simpa [fillNonceGas, walletPopulate] using hpres
      · exact absurd h (by simp)
    · have hpres := feeInference_preserves _ _ _ h
      simpa [fillNonceGas, walletPopulate] using hpres

/-- C3: on the custom-transaction path, population forces `value` to 0 and
`data` to `"0x"` exactly when they are absent, merges `customData` with the
protocol defaults (`gasPerPubdata` defaulting to the fixed constant,
`factoryDeps` to the empty sequence), and overwrites any caller gas price with
the provider's current one. -/
theorem wallet_populateTransaction_custom_path (w : Wallet) (p : Provider) (tx pop : Tx)
    (hp : w.provider = some p)
    (hcustom : tx.customData.isSome ∨ tx.type = some EIP712_TX_TYPE)
    (hok : w.populateTransaction tx = .ok pop) :
    pop.type = some EIP712_TX_TYPE ∧
    (tx.value = none → pop.value = some 0) ∧
    (tx.data = none → pop.data = some "0x") ∧
    pop.customData = some (fillCustomData (tx.customData.getD CustomData.empty)) ∧
    (fillCustomData (tx.customData.getD CustomData.empty)).gasPerPubdata
      = some ((tx.customData.getD CustomData.empty).gasPerPubdata.getD
          DEFAULT_GAS_PER_PUBDATA_LIMIT) ∧
    (fillCustomData (tx.customData.getD CustomData.empty)).factoryDeps
      = some ((tx.customData.getD CustomData.empty).factoryDeps.getD []) ∧
    pop.gasPrice = some p.gasPrice := by
  have hcond : (tx.type == none && tx.customData == none) = false := by
    rcases hcustom with h | h
    · rcases Option.isSome_iff_exists.mp h with ⟨cd, hcd⟩
      simp [hcd]
    · simp [h]
  have hdispatch : (tx.customData == none && tx.type != some EIP712_TX_TYPE) = false := by
    rcases hcustom with h | h
    · rcases Option.isSome_iff_exists.mp h with ⟨cd, hcd⟩
      simp [hcd]
    · simp [h]
  simp only [Wallet.populateTransaction, hcond, Bool.false_eq_true, if_false,
    hdispatch] at hok
  split at hok
  · exact absurd hok (by simp)
  · exact absurd hok (by simp)
  · rename_i populated p' hinner hprov
    have hpres := populateTransactionInner_preserves w tx populated hinner
    have hpp : p' = p := by
      rw [hp] at hprov
      exact (Option.some.inj hprov).symm
    cases hok
    subst hpp
    refine ⟨rfl, ?_, ?_, rfl, rfl, rfl, rfl⟩
    · intro hv
      simp [hpres.1, hv]
    · intro hd
      simp [hpres.2, hd]

/-- Witness for C3 at the fixture wallet and an empty custom-data request. -/
theorem wallet_populateTransaction_custom_path_witness :
    walletFix.populateTransaction { customData := some CustomData.empty } = .ok popCustomW ∧
    popCustomW.gasPrice = some provider1559.gasPrice :=
  ⟨rfl,
    (wallet_populateTransaction_custom_path walletFix provider1559
      { customData := some CustomData.empty } popCustomW rfl (Or.inl rfl) rfl).2.2.2.2.2.2⟩

/-- Fee inference, auto-detect branch on an EIP-1559 network with a supplied
legacy gas price: the gas price is deleted and becomes both fee fields, and
the type is upgraded to 2. -/
theorem feeInference_autoDetect_gasPrice (feeData : FeeData) (P pop : Tx) (g : Nat)
    (hty : P.type = none) (hgp : P.gasPrice = some g)
    (hmf : P.maxFeePerGas = none) (hmp : P.maxPriorityFeePerGas = none)
    (hfd1 : feeData.maxFeePerGas.isSome = true)
    (hfd2 : feeData.maxPriorityFeePerGas.isSome = true)
    (h : feeInference feeData P = .ok pop) :
    pop.gasPrice = none ∧ pop.maxFeePerGas = some g ∧
    pop.maxPriorityFeePerGas = some g ∧ pop.type = some 2 := by
  have hval : feeInference feeData P
      = .ok { P with
              type := some 2
              gasPrice := none
              maxFeePerGas := some g
              maxPriorityFeePerGas := some g } := by
    simp [feeInference, hty, hgp, hmf, hmp, hfd1, hfd2]
  rw [hval] at h
  cases h
  exact ⟨rfl, rfl, rfl, rfl⟩

/-- C4: in the fee-inference sub-algorithm, a request with unset `type` and a
caller-supplied legacy `gasPrice` on a network reporting both EIP-1559 fields
has its `gasPrice` deleted, both fee fields set to that gas price, and its
type upgraded to 2. -/
theorem walletInner_legacy_gasPrice_upgrade (w : Wallet) (p : Provider) (tx pop : Tx)
    (g : Nat) (hp : w.provider = some p)
    (hfd1 : p.feeData.maxFeePerGas.isSome = true)
    (hfd2 : p.feeData.maxPriorityFeePerGas.isSome = true)
    (htype : tx.type = none) (hgp : tx.gasPrice = some g)
    (hmf : tx.maxFeePerGas = none) (hmp : tx.maxPriorityFeePerGas = none)
    (hok : w.populateTransactionInner tx = .ok pop) :
    pop.gasPrice = none ∧ pop.maxFeePerGas = some g ∧
    pop.maxPriorityFeePerGas = some g ∧ pop.type = some 2 := by
  simp only [Wallet.populateTransactionInner, hp] at hok
  split at hok
  · split at hok
    · exact feeInference_autoDetect_gasPrice p.feeData _ pop g
        (by simp [fillNonceGas, walletPopulate, htype])
        (by simp [fillNonceGas, walletPopulate, hgp])
        (by simp [fillNonceGas, walletPopulate, hmf])
        (by simp [fillNonceGas, walletPopulate, hmp])
        hfd1 hfd2 hok
    · exact absurd hok (by simp)
  · exact feeInference_autoDetect_gasPrice p.feeData _ pop g
      (by simp [fillNonceGas, walletPopulate, htype])
      (by simp [fillNonceGas, walletPopulate, hgp])
      (by simp [fillNonceGas, walletPopulate, hmf])
      (by simp [fillNonceGas, walletPopulate, hmp])
      hfd1 hfd2 hok

/-- Witness for C4 at the fixture wallet and a gas-price-only request. -/
theorem walletInner_legacy_gasPrice_upgrade_witness :
    walletFix.populateTransactionInner { gasPrice := some 7 } = .ok popUpgradeW ∧
    popUpgradeW.maxFeePerGas = some 7 :=
  ⟨rfl,
    (walletInner_legacy_gasPrice_upgrade walletFix provider1559
      { gasPrice := some 7 } popUpgradeW 7 rfl rfl rfl rfl rfl rfl rfl rfl).2.1⟩

/-- Fee inference, auto-detect branch on a network without both EIP-1559
fields but with a gas price: type is set to 0 and a missing gas price is
filled from the fee data. -/
theorem feeInference_legacy_network_fill (feeData : FeeData) (P : Tx) (fg : Nat)
    (hty : P.type = none) (hmf : P.maxFeePerGas = none)
    (hmp : P.maxPriorityFeePerGas = none)
    (hfdboth : (feeData.maxFeePerGas.isSome && feeData.maxPriorityFeePerGas.isSome) = false)
    (hfdgp : feeData.gasPrice = some fg) :
    feeInference feeData P
      = .ok { P with type := some 0, gasPrice := some (P.gasPrice.getD fg) } := by
  rcases hPg : P.gasPrice with _ | g0 <;>
    simp [feeInference, hty, hmf, hmp, hfdboth, hfdgp, hPg]

/-- Fee inference, auto-detect branch on a network without both EIP-1559
fields but with a gas price, when the caller supplied some EIP-1559 field:
the unsupported-operation failure. -/
theorem feeInference_legacy_network_eip1559_rejected (feeData : FeeData) (P : Tx)
    (hty : P.type = none) (hgp : P.gasPrice = none)
    (h1559 : (P.maxFeePerGas.isSome || P.maxPriorityFeePerGas.isSome) = true)
    (hnotboth : (P.maxFeePerGas.isSome && P.maxPriorityFeePerGas.isSome) = false)
    (hfdboth : (feeData.maxFeePerGas.isSome && feeData.maxPriorityFeePerGas.isSome) = false)
    (hfdgp : feeData.gasPrice.isSome = true) :
    feeInference feeData P
      = .error (.unsupportedOperation "network does not support EIP-1559"
          "populateTransaction") := by
  simp [feeInference, hty, hgp, h1559, hnotboth, hfdboth, hfdgp]

/-- Fee inference, auto-detect branch when the fee data carries neither both
EIP-1559 fields nor a gas price: the inconsistent-fee-data failure. -/
theorem feeInference_inconsistent (feeData : FeeData) (P : Tx)
    (hty : P.type = none)
    (hguard : (P.gasPrice.isSome && (P.maxFeePerGas.isSome || P.maxPriorityFeePerGas.isSome))
        = false)
    (hnotboth : (P.maxFeePerGas.isSome && P.maxPriorityFeePerGas.isSome) = false)
    (hfdboth : (feeData.maxFeePerGas.isSome && feeData.maxPriorityFeePerGas.isSome) = false)
    (hfdgp : feeData.gasPrice = none) :
    feeInference feeData P
      = .error (.unsupportedOperation "failed to get consistent fee data"
          "signer.getFeeData") := by
  rcases hfd1 : feeData.maxFeePerGas with _ | a <;>
  rcases hfd2 : feeData.maxPriorityFeePerGas with _ | b <;>
  rcases hPmf : P.maxFeePerGas with _ | mfv <;>
  rcases hPmp : P.maxPriorityFeePerGas with _ | mpv <;>
  rcases hPg : P.gasPrice with _ | gv <;>
    simp_all [feeInference, hty]

/-- C5 (amended): the legacy-network and inconsistent-fee-data outcomes apply
to requests whose `type` is unset (not to explicit type-2 requests): with a
gas price in the fee data but not both EIP-1559 fields, population sets the
type to 0 and fills a missing gas price from the fee data, failing with the
unsupported-operation error when the caller supplied an EIP-1559 field; with
neither available, population fails with the inconsistent-fee-data error. -/
theorem walletInner_auto_detect_legacy_network (w : Wallet) (p : Provider) (tx : Tx)
    (hp : w.provider = some p) (htype : tx.type = none) (hchain : tx.chainId = none)
    (hnotboth :
      (p.feeData.maxFeePerGas.isSome && p.feeData.maxPriorityFeePerGas.isSome) = false) :
    (∀ fg, p.feeData.gasPrice = some fg →
      (tx.maxFeePerGas = none → tx.maxPriorityFeePerGas = none →
        w.populateTransactionInner tx
          = .ok { fillNonceGas p w tx with
                  chainId := some p.chainId
                  type := some 0
                  gasPrice := some (tx.gasPrice.getD fg) }) ∧
      ((tx.maxFeePerGas.isSome || tx.maxPriorityFeePerGas.isSome) = true →
        (tx.maxFeePerGas.isSome && tx.maxPriorityFeePerGas.isSome) = false →
        tx.gasPrice = none →
        w.populateTransactionInner tx
          = .error (.unsupportedOperation "network does not support EIP-1559"
              "populateTransaction"))) ∧
    (p.feeData.gasPrice = none →
      (tx.gasPrice.isSome && (tx.maxFeePerGas.isSome || tx.maxPriorityFeePerGas.isSome))
          = false →
      (tx.maxFeePerGas.isSome && tx.maxPriorityFeePerGas.isSome) = false →
      w.populateTransactionInner tx
        = .error (.unsupportedOperation "failed to get consistent fee data"
            "signer.getFeeData")) := by
  have hFchain : (fillNonceGas p w tx).chainId = none := by
    simp [fillNonceGas, walletPopulate, hchain]
  refine ⟨fun fg hfg => ⟨fun hmf hmp => ?_, fun h1559 hnb hgp => ?_⟩,
    fun hfdgp hguard hnb => ?_⟩
  · simp only [Wallet.populateTransactionInner, hp, hFchain]
    rw [feeInference_legacy_network_fill p.feeData _ fg
      (by simp [fillNonceGas, walletPopulate, htype])
      (by simp [fillNonceGas, walletPopulate, hmf])
      (by simp [fillNonceGas, walletPopulate, hmp])
      hnotboth hfg]
    simp [fillNonceGas, walletPopulate]
  · simp only [Wallet.populateTransactionInner, hp, hFchain]
    exact feeInference_legacy_network_eip1559_rejected p.feeData _
      (by simp [fillNonceGas, walletPopulate, htype])
      (by simp [fillNonceGas, walletPopulate, hgp])
      (by simpa [fillNonceGas, walletPopulate] using h1559)
      (by simpa [fillNonceGas, walletPopulate] using hnb)
      hnotboth (by simp [hfg])
  · simp only [Wallet.populateTransactionInner, hp, hFchain]
    exact feeInference_inconsistent p.feeData _
      (by simp [fillNonceGas, walletPopulate, htype])
      (by simpa [fillNonceGas, walletPopulate] using hguard)
      (by simpa [fillNonceGas, walletPopulate] using hnb)
      hnotboth (by simp [hfdgp])

/-- Witness for C5 (amended) at the legacy-network wallet on the empty
request: population succeeds with type 0 and the network gas price. -/
theorem walletInner_auto_detect_legacy_network_witness :
    walletLegacy.populateTransactionInner {} = .ok popLegacyW ∧
    popLegacyW.type = some 0 ∧ popLegacyW.gasPrice = some 250000000 := by
  have h := ((walletInner_auto_detect_legacy_network walletLegacy providerLegacy {}
    rfl rfl rfl rfl).1 250000000 rfl).1 rfl rfl
  exact ⟨h.trans rfl, rfl, rfl⟩

/-- Counterexample for C5 as stated: on a network whose fee data reports a
gas price but not both EIP-1559 fields, an explicit type-2 request (carrying
no fee fields) is populated successfully with its type still 2 — it is
neither set to type 0 nor rejected. -/
theorem walletInner_explicit_type2_legacy_network :
    providerLegacy.feeData.maxFeePerGas = none ∧
    providerLegacy.feeData.maxPriorityFeePerGas = none ∧
    providerLegacy.feeData.gasPrice = some 250000000 ∧
    txType2.type = some 2 ∧ txType2.maxFeePerGas = none ∧
    txType2.maxPriorityFeePerGas = none ∧
    walletLegacy.populateTransactionInner txType2 = .ok popType2 ∧
    popType2.type = some 2 ∧ popType2.type ≠ some 0 ∧
    popType2.maxFeePerGas = none := by
  refine ⟨rfl, rfl, rfl, rfl, rfl, rfl, rfl, rfl, by simp [popType2], rfl⟩

end ZkSyncEthers
